import Mathlib

set_option maxHeartbeats 1000000
set_option linter.unusedVariables false
set_option linter.unnecessarySimpa false

/-!
Shallow embedding of `src/main.py`, the RT809F Cloud Bridge service:
the `RT809FSimulator` device registry and command executor, the
`CloudBridgeManager` WebSocket session handling, and the REST connect
endpoint.  Python dictionaries are modelled as insertion-ordered
association lists, `datetime.now()` / randomness / `uuid` draws are
supplied by an explicit `Oracle` record, and the WebSocket transport is
modelled as a list of inbound events.
-/

/-- Lookup in an insertion-ordered association list, modelling Python
dictionary access `d.get(k)` / `k in d`. -/
def dget {α : Type} : List (String × α) → String → Option α
  | [], _ => none
  | (k1, v1) :: t, k => if k1 = k then some v1 else dget t k

/-- Update modelling Python `d[k] = v`: an existing key is overwritten in
place (keeping its position, as CPython dicts do), a new key is appended. -/
def dset {α : Type} : List (String × α) → String → α → List (String × α)
  | [], k, v => [(k, v)]
  | (k1, v1) :: t, k, v => if k1 = k then (k, v) :: t else (k1, v1) :: dset t k v

/-- Deletion modelling Python `del d[k]`. -/
def ddel {α : Type} (l : List (String × α)) (k : String) : List (String × α) :=
  l.filter (fun p => p.1 ≠ k)

/-- Standard base64 alphabet, as used by `base64.b64encode` (line 194). -/
def b64alphabet : List Char :=
  ['A', 'B', 'C', 'D', 'E', 'F', 'G', 'H', 'I', 'J', 'K', 'L', 'M',
   'N', 'O', 'P', 'Q', 'R', 'S', 'T', 'U', 'V', 'W', 'X', 'Y', 'Z',
   'a', 'b', 'c', 'd', 'e', 'f', 'g', 'h', 'i', 'j', 'k', 'l', 'm',
   'n', 'o', 'p', 'q', 'r', 's', 't', 'u', 'v', 'w', 'x', 'y', 'z',
   '0', '1', '2', '3', '4', '5', '6', '7', '8', '9', '+', '/']

/-- Character of a 6-bit group. -/
def b64char (i : Nat) : Char := b64alphabet.getD i 'A'

/-- Helper scanning the alphabet for the index of a character. -/
def b64indexAux : List Char → Nat → Char → Nat
  | [], _, _ => 0
  | a :: t, i, c => if a = c then i else b64indexAux t (i + 1) c

/-- Index of a base64 character in the alphabet (0 for foreign characters). -/
def b64index (c : Char) : Nat := b64indexAux b64alphabet 0 c

/-- Base64 encoding of a byte list, modelling `base64.b64encode` with the
usual `=` padding. -/
def b64encode : List Nat → List Char
  | [] => []
  | [a] => [b64char (a / 4), b64char (a % 4 * 16), '=', '=']
  | [a, b] => [b64char (a / 4), b64char (a % 4 * 16 + b / 16), b64char (b % 16 * 4), '=']
  | a :: b :: c :: rest =>
    b64char (a / 4) :: b64char (a % 4 * 16 + b / 16) ::
      b64char (b % 16 * 4 + c / 64) :: b64char (c % 64) :: b64encode rest

/-- Base64 decoding on well-formed input, modelling `base64.b64decode`. -/
def b64decode : List Char → List Nat
  | c0 :: c1 :: c2 :: c3 :: rest =>
    if c2 = '=' then
      [b64index c0 * 4 + b64index c1 / 16]
    else if c3 = '=' then
      [b64index c0 * 4 + b64index c1 / 16, b64index c1 % 16 * 16 + b64index c2 / 4]
    else
      (b64index c0 * 4 + b64index c1 / 16) ::
        (b64index c1 % 16 * 16 + b64index c2 / 4) ::
        (b64index c2 % 4 * 64 + b64index c3) :: b64decode rest
  | _ => []

/-- Oracle supplying every environment interaction of one operation:
the wall clock (`datetime.now()`, `time.time()` modelled as one tick),
`random.choice` draws (as indices), `os.urandom` (with its guaranteed
length and byte range), `hashlib.md5` digests, and `uuid.uuid4` strings. -/
structure Oracle where
  now : Nat
  delay : Nat
  chip_type_idx : Nat
  chip_size_idx : Nat
  manuf_idx : Nat
  urandom : Nat → List Nat
  urandom2 : Nat → List Nat
  urandom_len : ∀ n, (urandom n).length = n
  urandom_lt : ∀ n, ∀ b ∈ urandom n, b < 256
  md5hex : List Nat → String
  serial : Nat → String
  session_uuid : String
  transfer_uuid : String

/-- Python `random.choice(l)`, the drawn position supplied by the oracle. -/
def pychoice {α : Type} (l : List α) (dflt : α) (i : Nat) : α :=
  l.getD (i % l.length) dflt

/-- Metadata bag of a simulated device (lines 125-130). -/
structure MetaData where
  firmware_version : String
  serial_number : String
  manufacturer : String
  supported_chips : List String
  deriving DecidableEq, Repr

/-- Model of the `DeviceInfo` pydantic model (lines 58-68). -/
structure DeviceInfo where
  device_id : String
  name : String
  type : String
  status : String
  ip_address : Option String
  port : Option Nat
  last_seen : Option Nat
  capabilities : List String
  metadata : MetaData
  deriving DecidableEq, Repr

/-- Connection record stored in `RT809FSimulator.connections` (lines 140-143). -/
structure ConnRecord where
  connected_at : Nat
  session_id : String
  deriving DecidableEq, Repr

/-- Chip descriptor of the static `list_supported_chips` catalog (lines 208-214). -/
structure ChipDesc where
  name : String
  interface : String
  size : Nat
  deriving DecidableEq, Repr

/-- Result payloads the executor can synthesize (lines 184-215): one
constructor per command branch. -/
inductive CmdResult where
  | detectChip (chip_found : Bool) (chip_type : String) (size : Nat) (manufacturer : String)
  | readFlash (data : List Char) (size : Nat) (checksum : String)
  | writeFlash (success : Bool) (bytes_written : Nat) (verification_passed : Bool)
  | deviceInfoRes (d : DeviceInfo)
  | chipList (chips : List ChipDesc)
  deriving DecidableEq, Repr

/-- Model of the `CommandResponse` pydantic model (lines 84-90); elapsed
time is modelled coarsely (0 for the pre-dispatch early returns, the
oracle's delay otherwise). -/
structure CommandResponse where
  success : Bool
  result : Option CmdResult
  error : Option String
  execution_time : Nat
  timestamp : Nat
  deriving DecidableEq, Repr

/-- Integer-valued command parameters consulted by the executor
(`params.get("size", 1024)` and `params.get("data_size", 0)`). -/
structure Params where
  size : Option Nat
  data_size : Option Nat
  deriving DecidableEq, Repr

/-- Entry of `RT809FSimulator.command_history` (lines 228-233). -/
structure HistoryEntry where
  device_id : String
  command : String
  response : CommandResponse
  timestamp : Nat
  deriving DecidableEq, Repr

/-- State of `RT809FSimulator`: the device registry, the connection
records, and the command history (lines 99-102). -/
structure SimState where
  devices : List (String × DeviceInfo)
  connections : List (String × ConnRecord)
  command_history : List HistoryEntry
  deriving DecidableEq, Repr

/-- Exceptions the embedded Python can raise: `NameError` for a reference
to a name the module never binds, and an abrupt transport failure. -/
inductive PyExc where
  | nameError (n : String)
  | transport
  deriving DecidableEq, Repr

/-- Configured device pool size (`Config.DEVICE_POOL_SIZE`, line 37). -/
def DEVICE_POOL_SIZE : Nat := 5

/-- Default configured API secret (`Config.API_KEY`, line 45). -/
def API_KEY : String := "thai_dev_rt809f_2023"

/-- Zero-padded three-digit rendering of `i`, modelling the `{i+1:03d}`
format specifier of line 108. -/
def pad3 (n : Nat) : String :=
  if n < 10 then "00" ++ toString n
  else if n < 100 then "0" ++ toString n
  else toString n

/-- Device identifier generated at line 108: `rt809f_NNN`. -/
def deviceIdOf (i : Nat) : String := "rt809f_" ++ pad3 (i + 1)

/-- Fixed capability list of every generated device (lines 117-124). -/
def capability_list : List String :=
  ["flash_read", "flash_write", "chip_detect", "eeprom_program",
   "spi_interface", "i2c_interface"]

/-- One simulated device as built by the loop body of
`RT809FSimulator._generate_devices` (lines 107-131). -/
def mkDevice (i : Nat) (o : Oracle) : DeviceInfo :=
  { device_id := deviceIdOf i
    name := "RT809F Programmer #" ++ toString (i + 1)
    type := "rt809f"
    status := if i < 2 then "connected" else "disconnected"
    ip_address := some ("192.168.1." ++ toString (100 + i))
    port := some (8090 + i)
    last_seen := some o.now
    capabilities := capability_list
    metadata := ⟨"V1.8", o.serial i, "THAI-DEV", ["24Cxx", "25Qxx", "93Cxx", "M95xxx"]⟩ }

/-- Model of `RT809FSimulator._generate_devices` (lines 104-132): the
loop appends devices in index order, so the dict holds them in creation
order. -/
def generate_devices (poolSize : Nat) (o : Oracle) : List (String × DeviceInfo) :=
  (List.range poolSize).map (fun i => (deviceIdOf i, mkDevice i o))

/-- Simulator state right after `RT809FSimulator.__init__` (lines 99-102). -/
def initSimState (o : Oracle) : SimState :=
  { devices := generate_devices DEVICE_POOL_SIZE o
    connections := []
    command_history := [] }

/-- Model of `RT809FSimulator.connect` (lines 134-145). -/
def connect (s : SimState) (device_id : String) (o : Oracle) : Bool × SimState :=
  match dget s.devices device_id with
  | some d =>
    (true,
      { s with
        devices := dset s.devices device_id
          { d with status := "connected", last_seen := some o.now }
        connections := dset s.connections device_id ⟨o.now, o.session_uuid⟩ })
  | none => (false, s)

/-- Model of `RT809FSimulator.disconnect` (lines 147-154). -/
def disconnect (s : SimState) (device_id : String) : Bool × SimState :=
  if (dget s.connections device_id).isSome then
    let s1 := { s with connections := ddel s.connections device_id }
    match dget s1.devices device_id with
    | some d =>
      (true, { s1 with devices := dset s1.devices device_id { d with status := "disconnected" } })
    | none => (true, s1)
  else
    (false, s)

/-- Handled result of the device-existence precondition (lines 160-166). -/
def notFoundResponse (device_id : String) (o : Oracle) : CommandResponse :=
  ⟨false, none, some ("Device " ++ device_id ++ " not found"), 0, o.now⟩

/-- Handled result of the connected-status precondition (lines 168-174). -/
def notConnectedResponse (device_id : String) (o : Oracle) : CommandResponse :=
  ⟨false, none, some ("Device " ++ device_id ++ " is not connected"), 0, o.now⟩

/-- Static chip catalog returned by `list_supported_chips` (lines 206-215). -/
def chipCatalog : List ChipDesc :=
  [⟨"24C01", "I2C", 128⟩,
   ⟨"24C64", "I2C", 8192⟩,
   ⟨"25Q32", "SPI", 4194304⟩,
   ⟨"93C46", "MICROWIRE", 1024⟩,
   ⟨"M95010", "SPI", 1024⟩]

/-- Command processing of `execute_command` (lines 179-218): given the
target device, the command name and parameters, produce the final
`(success, result, error)` triple exactly as the if/elif chain
prescribes.  This chain is unreachable in the running program (line 177
raises `NameError` first, see `execute_command_run`), and its
`read_flash` branch would itself evaluate `hashlib.md5` at line 196 with
`hashlib` never imported; the checksum recorded here is the prescribed
digest of that computation, supplied by the oracle.  The definition
serves to cover every response shape the function text can construct. -/
def dispatch (d : DeviceInfo) (command : String) (p : Params) (o : Oracle) :
    Bool × Option CmdResult × Option String :=
  if command = "detect_chip" then
    (true, some (CmdResult.detectChip true
      (pychoice ["24C64", "25Q32", "93C46", "M95010"] "24C64" o.chip_type_idx)
      (pychoice [8192, 32768, 65536, 131072] 8192 o.chip_size_idx)
      (pychoice ["Microchip", "Winbond", "ST", "Atmel"] "Microchip" o.manuf_idx)), none)
  else if command = "read_flash" then
    (true, some (CmdResult.readFlash (b64encode (o.urandom (p.size.getD 1024)))
      (p.size.getD 1024) (o.md5hex (o.urandom2 (p.size.getD 1024)))), none)
  else if command = "write_flash" then
    (true, some (CmdResult.writeFlash true (p.data_size.getD 0) true), none)
  else if command = "get_device_info" then
    (true, some (CmdResult.deviceInfoRes d), none)
  else if command = "list_supported_chips" then
    (true, some (CmdResult.chipList chipCatalog), none)
  else
    (false, none, some ("Unknown command: " ++ command))

/-- Prescribed-body model of `RT809FSimulator.execute_command` (lines
156-235): the two precondition early returns (which skip the history
append), then the dispatch, response construction, and history append,
with the body's randomness and clock supplied by the oracle.  This is
NOT the runtime behaviour: in the running program everything past line
177 is unreachable because `random` is never imported —
`execute_command_run` below is the faithful runtime model, and every
claim about what the program actually does is settled against it.  This
definition exists to quantify over every response the function text can
construct (the success/error exclusivity invariant). -/
def execute_command (s : SimState) (device_id command : String) (p : Params) (o : Oracle) :
    CommandResponse × SimState :=
  match dget s.devices device_id with
  | none => (notFoundResponse device_id o, s)
  | some d =>
    if d.status ≠ "connected" then
      (notConnectedResponse device_id o, s)
    else
      let t := dispatch d command p o
      let resp : CommandResponse := ⟨t.1, t.2.1, t.2.2, o.delay, o.now⟩
      (resp, { s with command_history := s.command_history ++ [⟨device_id, command, resp, o.now⟩] })

/-- Runtime model of `RT809FSimulator.execute_command`: the module of
`src/main.py` never imports `random` (nor `hashlib`), so once both
preconditions pass, evaluating `random.uniform(0.1, 1.0)` at line 177
raises `NameError: name 'random' is not defined` before any command
branch, response construction, or history append is reached.  The two
precondition early returns (lines 160-174) are unaffected because they
return before line 177. -/
def execute_command_run (s : SimState) (device_id command : String) (p : Params) (o : Oracle) :
    Except PyExc (CommandResponse × SimState) :=
  match dget s.devices device_id with
  | none => Except.ok (notFoundResponse device_id o, s)
  | some d =>
    if d.status ≠ "connected" then
      Except.ok (notConnectedResponse device_id o, s)
    else
      Except.error (PyExc.nameError "random")

/-- Model of the `GET /api/devices` handler `list_devices` (lines 724-728):
the values of the device dict in insertion order. -/
def list_devices (s : SimState) : List DeviceInfo :=
  s.devices.map Prod.snd

/-- Model of the `ConnectionRequest` pydantic model (lines 70-75). -/
structure ConnectionRequest where
  device_id : String
  api_key : Option String
  protocol : String
  timeout : Nat
  deriving DecidableEq, Repr

/-- Possible HTTP-level outcomes of the `POST /api/devices/{id}/connect`
handler (lines 738-761): the 401 and 404 `HTTPException`s, the success
JSON carrying device id and session id, and the
`{success: false, error: "Connection failed"}` JSON of the else branch. -/
inductive ConnectHttp where
  | unauthorized401
  | notFound404
  | connectedOk (device_id : String) (session_id : String)
  | connectionFailed
  deriving DecidableEq, Repr

/-- Model of the REST handler `connect_device` (lines 738-761): API-key
check first, then device existence, then `RT809FSimulator.connect`; on
success the session id is read back from the simulator's connection
record (the `getD ""` models the dict access of line 755, which cannot
miss because `connect` has just stored the record). -/
def connect_device (apiKey : String) (s : SimState) (device_id : String)
    (req : ConnectionRequest) (o : Oracle) : ConnectHttp × SimState :=
  if req.api_key ≠ some apiKey then
    (ConnectHttp.unauthorized401, s)
  else if (dget s.devices device_id) = none then
    (ConnectHttp.notFound404, s)
  else
    let r := connect s device_id o
    if r.1 then
      (ConnectHttp.connectedOk device_id
        (((dget r.2.connections device_id).map ConnRecord.session_id).getD ""), r.2)
    else
      (ConnectHttp.connectionFailed, r.2)

/-- Session bookkeeping record of `CloudBridgeManager.bridge_sessions`
(lines 253-257). -/
structure SessionRec where
  connected_at : Nat
  last_activity : Nat
  message_count : Nat
  deriving DecidableEq, Repr

/-- State of `CloudBridgeManager` (lines 244-247); the WebSocket handles
of `websocket_connections` are abstracted to the set of keyed device ids. -/
structure BridgeState where
  sim : SimState
  ws_conns : List String
  bridge_sessions : List (String × SessionRec)
  deriving DecidableEq, Repr

/-- Inbound WebSocket payloads, discriminated on their `type` field as in
`_process_device_message` (lines 297-322); payload fields are restricted
to what that code reads.  A `type` outside the three known ones falls
through every branch and is ignored (`other`). -/
inductive InMsg where
  | command (cmd : String) (p : Params)
  | status_update (st : String)
  | data_transfer (transfer_id : Option String)
  | other
  deriving DecidableEq, Repr

/-- One observable step of the transport towards the session loop of
`handle_device_connection` (lines 272-285): a received JSON message, an
idle-timeout expiry of the receive, a voluntary close
(`WebSocketDisconnect`), or an abrupt transport fault. -/
inductive WsEvent where
  | msg (m : InMsg)
  | timeout
  | disconnect
  | fault
  deriving DecidableEq, Repr

/-- Events the bridge sends on the transport (lines 264-269, 285,
310-314, 333-338). -/
inductive OutEvent where
  | connection_established (device_id : String)
  | command_response (command : String) (resp : CommandResponse)
  | ping
  | transfer_complete (transfer_id : String)
  deriving DecidableEq, Repr

/-- How a session loop run ended: the event trace was exhausted with the
session still open, a voluntary `WebSocketDisconnect` was received, or an
exception escaped the loop. -/
inductive SessionEnd where
  | stillOpen
  | closedDisconnect
  | closedFault (e : PyExc)
  deriving DecidableEq, Repr

/-- Activity bookkeeping done for each received message (lines 277-278). -/
def bumpActivity (bs : BridgeState) (device_id : String) (o : Oracle) : BridgeState :=
  { bs with bridge_sessions :=
      bs.bridge_sessions.map (fun p =>
        (p.1,
          if p.1 = device_id then
            { p.2 with last_activity := o.now, message_count := p.2.message_count + 1 }
          else p.2)) }

/-- Python `self.websocket_connections[device_id] = websocket` (line 252),
on the id-set abstraction of the handle dict. -/
def wsAdd (l : List String) (device_id : String) : List String :=
  if device_id ∈ l then l else l ++ [device_id]

/-- Model of `CloudBridgeManager._process_device_message` (lines 297-322).
A `command` message delegates to the executor's runtime model
(`execute_command_run`) and echoes a `command_response` when the handle
is still registered; a `status_update` message evaluates `logger.info`
(line 318) — but the module never defines `logger`, so it raises
`NameError`; a `data_transfer` message is acknowledged with
`transfer_complete` (lines 324-338). -/
def process_device_message (bs : BridgeState) (device_id : String) (m : InMsg) (o : Oracle) :
    Except PyExc (BridgeState × List OutEvent) :=
  match m with
  | InMsg.command cmd p =>
    match execute_command_run bs.sim device_id cmd p o with
    | Except.ok (resp, sim2) =>
      Except.ok ({ bs with sim := sim2 },
        if device_id ∈ bs.ws_conns then [OutEvent.command_response cmd resp] else [])
    | Except.error e => Except.error e
  | InMsg.status_update _ => Except.error (PyExc.nameError "logger")
  | InMsg.data_transfer tid =>
    Except.ok (bs,
      if device_id ∈ bs.ws_conns then [OutEvent.transfer_complete (tid.getD o.transfer_uuid)] else [])
  | InMsg.other => Except.ok (bs, [])

/-- Receive loop of `handle_device_connection` (lines 271-285) over an
explicit trace of transport events: a message is processed after the
activity bump; a receive timeout sends one `ping` and continues; a
`WebSocketDisconnect` leaves the loop through the `except` clause; an
abrupt fault (or an exception escaping message processing) leaves the
loop as a fault. -/
def sessionLoop (device_id : String) (o : Oracle) :
    BridgeState → List WsEvent → BridgeState × List OutEvent × SessionEnd
  | bs, [] => (bs, [], SessionEnd.stillOpen)
  | bs, WsEvent.timeout :: rest =>
    ((sessionLoop device_id o bs rest).1,
      OutEvent.ping :: (sessionLoop device_id o bs rest).2.1,
      (sessionLoop device_id o bs rest).2.2)
  | bs, WsEvent.disconnect :: _ => (bs, [], SessionEnd.closedDisconnect)
  | bs, WsEvent.fault :: _ => (bs, [], SessionEnd.closedFault PyExc.transport)
  | bs, WsEvent.msg m :: rest =>
    match process_device_message (bumpActivity bs device_id o) device_id m o with
    | Except.ok (bs2, outs1) =>
      ((sessionLoop device_id o bs2 rest).1,
        outs1 ++ (sessionLoop device_id o bs2 rest).2.1,
        (sessionLoop device_id o bs2 rest).2.2)
    | Except.error e => (bumpActivity bs device_id o, [], SessionEnd.closedFault e)

/-- Cleanup of the `finally` block (lines 289-295): simulator disconnect,
then removal of the transport handle and the session record. -/
def cleanup (bs : BridgeState) (device_id : String) : BridgeState :=
  { sim := (disconnect bs.sim device_id).2
    ws_conns := bs.ws_conns.filter (fun x => x ≠ device_id)
    bridge_sessions := ddel bs.bridge_sessions device_id }

/-- Model of `CloudBridgeManager.handle_device_connection` (lines
249-295): accept, register the handle and a fresh session record,
`connect` the simulated device (its boolean result is discarded, line
261), emit `connection_established`, run the receive loop, and — on any
loop exit other than trace exhaustion — run the `finally` cleanup.
(When the trace is exhausted the session is still live, so the snapshot
is returned without cleanup.)  The `logger.info` of the
`WebSocketDisconnect` handler (line 288) would itself raise `NameError`
(the module never defines `logger`), but only after `finally` has run;
the exit kind already records the closure, so that secondary fault is
not modelled separately.  `preState` is the state right after the
setup steps of lines 251-261 (accept, handle registration, session
record, simulator connect); `handle_device_connection` then runs the
receive loop from it and finishes. -/
def preState (bs : BridgeState) (device_id : String) (o : Oracle) : BridgeState :=
  { sim := (connect bs.sim device_id o).2
    ws_conns := wsAdd bs.ws_conns device_id
    bridge_sessions := dset bs.bridge_sessions device_id ⟨o.now, o.now, 0⟩ }

/-- Exit handling of `handle_device_connection`: when the loop was left
by a close or a fault, the `finally` cleanup runs; when the trace was
exhausted with the session still live, the snapshot is returned as is. -/
def finishSession (device_id : String)
    (r : BridgeState × List OutEvent × SessionEnd) : BridgeState × List OutEvent × SessionEnd :=
  match r.2.2 with
  | SessionEnd.stillOpen =>
    (r.1, OutEvent.connection_established device_id :: r.2.1, SessionEnd.stillOpen)
  | e => (cleanup r.1 device_id, OutEvent.connection_established device_id :: r.2.1, e)

def handle_device_connection (bs : BridgeState) (device_id : String)
    (events : List WsEvent) (o : Oracle) : BridgeState × List OutEvent × SessionEnd :=
  finishSession device_id (sessionLoop device_id o (preState bs device_id o) events)

/-- Concrete oracle used by witnesses and counterexamples: zero clock,
zero bytes, empty digests. -/
def oracle0 : Oracle :=
  { now := 0
    delay := 0
    chip_type_idx := 0
    chip_size_idx := 0
    manuf_idx := 0
    urandom := fun n => List.replicate n 0
    urandom2 := fun n => List.replicate n 0
    urandom_len := fun n => List.length_replicate n 0
    urandom_lt := fun n b hb => by
      have h0 : b = 0 := List.eq_of_mem_replicate hb
      omega
    md5hex := fun _ => "d41d8cd98f00b204e9800998ecf8427e"
    serial := fun _ => "SN00000000"
    session_uuid := "session-uuid-0"
    transfer_uuid := "transfer-uuid-0" }

/-- Empty parameter mapping. -/
def params0 : Params := ⟨none, none⟩

/-- Bridge state right after `CloudBridgeManager.__init__` (lines 244-247). -/
def initBridgeState (o : Oracle) : BridgeState :=
  { sim := initSimState o, ws_conns := [], bridge_sessions := [] }

/-- Looking up a key that was just set yields the new value. -/
theorem dget_dset_self {α : Type} (l : List (String × α)) (k : String) (v : α) :
    dget (dset l k v) k = some v := by
  induction l with
  | nil => simp [dget, dset]
  | cons hd t ih =>
    obtain ⟨k1, v1⟩ := hd
    by_cases hk : k1 = k
    · simp [dget, dset, hk]
    · simp [dget, dset, hk, ih]

/-- Looking up a key that was just deleted yields nothing. -/
theorem dget_ddel_self {α : Type} (l : List (String × α)) (k : String) :
    dget (ddel l k) k = none := by
  induction l with
  | nil => rfl
  | cons hd t ih =>
    obtain ⟨k1, v1⟩ := hd
    by_cases hk : k1 = k
    · simpa [ddel, hk] using ih
    · simpa [ddel, dget, hk] using ih

/-- Mapping a key-preserving function over an association list does not
change which keys are present. -/
theorem dget_map_keyfix {α : Type} (f : String × α → α) (l : List (String × α)) (k : String) :
    (dget (l.map (fun p => (p.1, f p))) k).isSome = (dget l k).isSome := by
  induction l with
  | nil => rfl
  | cons hd t ih =>
    obtain ⟨k1, v1⟩ := hd
    by_cases hk : k1 = k
    · simp [dget, hk]
    · simpa [dget, hk] using ih

/-- A key is in the handle set after `wsAdd`ing it. -/
theorem mem_wsAdd (l : List String) (k : String) : k ∈ wsAdd l k := by
  unfold wsAdd
  by_cases hk : k ∈ l
  · simpa [hk]
  · simp [hk]

/-- After filtering a key out it is gone. -/
theorem not_mem_filter_ne {l : List String} {k : String} :
    k ∉ l.filter (fun x => x ≠ k) := by
  intro hmem
  have h := List.of_mem_filter hmem
  simp at h

/-- Alphabet characters decode back to their index. -/
theorem b64index_b64char : ∀ i < 64, b64index (b64char i) = i := by decide

/-- Alphabet characters are never the padding character. -/
theorem b64char_ne_pad : ∀ i < 64, b64char i ≠ '=' := by decide

/-- Decoding inverts encoding on genuine byte lists, hence the decoded
payload of `b64encode` has exactly the original byte length. -/
theorem b64_roundtrip : ∀ l : List Nat, (∀ b ∈ l, b < 256) → b64decode (b64encode l) = l
  | [], _ => rfl
  | [a], h => by
    have ha : a < 256 := h a (by simp)
    have h1 : a / 4 < 64 := by omega
    have h2 : a % 4 * 16 < 64 := by omega
    simp only [b64encode, b64decode, if_pos]
    rw [b64index_b64char _ h1, b64index_b64char _ h2]
    have e1 : a / 4 * 4 + a % 4 * 16 / 16 = a := by omega
    rw [e1]
  | [a, b], h => by
    have ha : a < 256 := h a (by simp)
    have hb : b < 256 := h b (by simp)
    have h1 : a / 4 < 64 := by omega
    have h2 : a % 4 * 16 + b / 16 < 64 := by omega
    have h3 : b % 16 * 4 < 64 := by omega
    simp only [b64encode, b64decode]
    rw [if_neg (b64char_ne_pad _ h3), if_true]
    rw [b64index_b64char _ h1, b64index_b64char _ h2, b64index_b64char _ h3]
    have e1 : a / 4 * 4 + (a % 4 * 16 + b / 16) / 16 = a := by omega
    have e2 : (a % 4 * 16 + b / 16) % 16 * 16 + b % 16 * 4 / 4 = b := by omega
    rw [e1, e2]
  | a :: b :: c :: d :: rest, h => by
    have ha : a < 256 := h a (by simp)
    have hb : b < 256 := h b (by simp)
    have hc : c < 256 := h c (by simp)
    have ih := b64_roundtrip (d :: rest) (fun x hx => h x (by simp [hx]))
    have h1 : a / 4 < 64 := by omega
    have h2 : a % 4 * 16 + b / 16 < 64 := by omega
    have h3 : b % 16 * 4 + c / 64 < 64 := by omega
    have h4 : c % 64 < 64 := by omega
    simp only [b64encode, b64decode]
    rw [if_neg (b64char_ne_pad _ h3), if_neg (b64char_ne_pad _ h4)]
    rw [b64index_b64char _ h1, b64index_b64char _ h2, b64index_b64char _ h3,
      b64index_b64char _ h4]
    rw [ih]
    have e1 : a / 4 * 4 + (a % 4 * 16 + b / 16) / 16 = a := by omega
    have e2 : (a % 4 * 16 + b / 16) % 16 * 16 + (b % 16 * 4 + c / 64) / 4 = b := by omega
    have e3 : (b % 16 * 4 + c / 64) % 4 * 64 + c % 64 = c := by omega
    rw [e1, e2, e3]
  | [a, b, c], h => by
    have ha : a < 256 := h a (by simp)
    have hb : b < 256 := h b (by simp)
    have hc : c < 256 := h c (by simp)
    have h1 : a / 4 < 64 := by omega
    have h2 : a % 4 * 16 + b / 16 < 64 := by omega
    have h3 : b % 16 * 4 + c / 64 < 64 := by omega
    have h4 : c % 64 < 64 := by omega
    simp only [b64encode, b64decode]
    rw [if_neg (b64char_ne_pad _ h3), if_neg (b64char_ne_pad _ h4)]
    rw [b64index_b64char _ h1, b64index_b64char _ h2, b64index_b64char _ h3,
      b64index_b64char _ h4]
    have e1 : a / 4 * 4 + (a % 4 * 16 + b / 16) / 16 = a := by omega
    have e2 : (a % 4 * 16 + b / 16) % 16 * 16 + (b % 16 * 4 + c / 64) / 4 = b := by omega
    have e3 : (b % 16 * 4 + c / 64) % 4 * 64 + c % 64 = c := by omega
    rw [e1, e2, e3]

/-- Whenever the runtime executor returns a handled result, the simulator
state is unchanged: only the two pre-dispatch early returns can return at
all, and neither touches the state. -/
theorem execute_command_run_ok_state (s : SimState) (device_id cmd : String) (p : Params)
    (o : Oracle) (r : CommandResponse) (s2 : SimState)
    (h : execute_command_run s device_id cmd p o = Except.ok (r, s2)) : s2 = s := by
  unfold execute_command_run at h
  split at h
  · simp only [Except.ok.injEq, Prod.mk.injEq] at h
    exact h.2.symm
  · split at h
    · simp only [Except.ok.injEq, Prod.mk.injEq] at h
      exact h.2.symm
    · exact Except.noConfusion h

/-- Message processing that completes normally can only change the
simulator state trivially; handle and session bookkeeping are untouched. -/
theorem process_ok_fields (bs : BridgeState) (device_id : String) (m : InMsg) (o : Oracle)
    (bs2 : BridgeState) (outs : List OutEvent)
    (h : process_device_message bs device_id m o = Except.ok (bs2, outs)) :
    bs2.sim = bs.sim ∧ bs2.ws_conns = bs.ws_conns ∧ bs2.bridge_sessions = bs.bridge_sessions := by
  cases m with
  | command cmd p =>
    simp only [process_device_message] at h
    cases he : execute_command_run bs.sim device_id cmd p o with
    | ok pr =>
      obtain ⟨resp, sim2⟩ := pr
      rw [he] at h
      simp only [Except.ok.injEq, Prod.mk.injEq] at h
      obtain ⟨hA, hB⟩ := h
      have hs2 : sim2 = bs.sim := execute_command_run_ok_state _ _ _ _ _ _ _ he
      rw [← hA]
      exact ⟨hs2, rfl, rfl⟩
    | error e =>
      rw [he] at h
      exact Except.noConfusion h
  | status_update st =>
    simp only [process_device_message] at h
    exact Except.noConfusion h
  | data_transfer tid =>
    simp only [process_device_message, Except.ok.injEq, Prod.mk.injEq] at h
    rw [← h.1]
    exact ⟨rfl, rfl, rfl⟩
  | other =>
    simp only [process_device_message, Except.ok.injEq, Prod.mk.injEq] at h
    rw [← h.1]
    exact ⟨rfl, rfl, rfl⟩

/-- The receive loop never changes the simulator state or the handle set
(commands on a live unregistered device are handled without state change,
and a command on a registered connected device faults out of the loop
before mutating anything), and it never changes which session keys are
present. -/
theorem sessionLoop_inv (device_id : String) (o : Oracle) :
    ∀ (events : List WsEvent) (bs : BridgeState),
      (sessionLoop device_id o bs events).1.sim = bs.sim
      ∧ (sessionLoop device_id o bs events).1.ws_conns = bs.ws_conns
      ∧ ∀ k, (dget (sessionLoop device_id o bs events).1.bridge_sessions k).isSome
          = (dget bs.bridge_sessions k).isSome := by
  intro events
  induction events with
  | nil => exact fun bs => ⟨rfl, rfl, fun k => rfl⟩
  | cons e rest ih =>
    intro bs
    cases e with
    | timeout =>
      simpa only [sessionLoop] using ih bs
    | disconnect => exact ⟨rfl, rfl, fun k => rfl⟩
    | fault => exact ⟨rfl, rfl, fun k => rfl⟩
    | msg m =>
      simp only [sessionLoop]
      cases hp : process_device_message (bumpActivity bs device_id o) device_id m o with
      | ok pr =>
        obtain ⟨bs2, outs1⟩ := pr
        have hf := process_ok_fields _ _ _ _ _ _ hp
        have hbump : ∀ k, (dget (bumpActivity bs device_id o).bridge_sessions k).isSome
            = (dget bs.bridge_sessions k).isSome := by
          intro k
          unfold bumpActivity
          exact dget_map_keyfix _ _ _
        refine ⟨?_, ?_, ?_⟩
        · exact (ih bs2).1.trans hf.1
        · exact (ih bs2).2.1.trans hf.2.1
        · intro k
          rw [(ih bs2).2.2 k, hf.2.2]
          exact hbump k
      | error e =>
        have hbump : ∀ k, (dget (bumpActivity bs device_id o).bridge_sessions k).isSome
            = (dget bs.bridge_sessions k).isSome := by
          intro k
          unfold bumpActivity
          exact dget_map_keyfix _ _ _
        exact ⟨rfl, rfl, hbump⟩

/-- When the loop was left by a close or fault, `finishSession` applies
the `finally` cleanup and keeps the exit kind. -/
theorem finishSession_closed (device_id : String)
    (r : BridgeState × List OutEvent × SessionEnd) (h : r.2.2 ≠ SessionEnd.stillOpen) :
    finishSession device_id r
      = (cleanup r.1 device_id, OutEvent.connection_established device_id :: r.2.1, r.2.2) := by
  unfold finishSession
  cases h22 : r.2.2 with
  | stillOpen => exact absurd h22 h
  | closedDisconnect => rfl
  | closedFault e => rfl

/-- When the trace was exhausted, `finishSession` returns the snapshot. -/
theorem finishSession_open (device_id : String)
    (r : BridgeState × List OutEvent × SessionEnd) (h : r.2.2 = SessionEnd.stillOpen) :
    finishSession device_id r
      = (r.1, OutEvent.connection_established device_id :: r.2.1, SessionEnd.stillOpen) := by
  unfold finishSession
  rw [h]

/-- The `finally` cleanup, run in a state whose simulator still holds a
connection record and a registry entry for the device, disconnects the
device in the registry and clears every bookkeeping entry. -/
theorem cleanup_spec (bs : BridgeState) (device_id : String) (c : ConnRecord) (d : DeviceInfo)
    (hc : dget bs.sim.connections device_id = some c)
    (hd : dget bs.sim.devices device_id = some d) :
    dget (cleanup bs device_id).sim.devices device_id
        = some { d with status := "disconnected" }
    ∧ dget (cleanup bs device_id).sim.connections device_id = none
    ∧ device_id ∉ (cleanup bs device_id).ws_conns
    ∧ dget (cleanup bs device_id).bridge_sessions device_id = none := by
  unfold cleanup disconnect
  rw [hc]
  simp only [Option.isSome_some, if_true]
  rw [hd]
  refine ⟨dget_dset_self _ _ _, dget_ddel_self _ _, not_mem_filter_ne, dget_ddel_self _ _⟩

/-- A trace of idle timeouts leaves the bridge state untouched and emits
exactly one ping per timeout, with the session still open. -/
theorem sessionLoop_timeouts (device_id : String) (o : Oracle) :
    ∀ (n : Nat) (bs : BridgeState),
      sessionLoop device_id o bs (List.replicate n WsEvent.timeout)
        = (bs, List.replicate n OutEvent.ping, SessionEnd.stillOpen) := by
  intro n
  induction n with
  | zero => intro bs; rfl
  | succ m ih =>
    intro bs
    rw [List.replicate_succ, List.replicate_succ]
    simp only [sessionLoop]
    rw [ih bs]

/-- On a session whose device id is not in the registry, every inbound
command message is answered with the handled device-not-found result and
the loop keeps running: the simulator state and the handle set never
change, and the session record stays present. -/
theorem sessionLoop_unreg (device_id : String) (o : Oracle) :
    ∀ (cmds : List (String × Params)) (bs : BridgeState),
      dget bs.sim.devices device_id = none → device_id ∈ bs.ws_conns →
      (sessionLoop device_id o bs
          (cmds.map (fun cp => WsEvent.msg (InMsg.command cp.1 cp.2)))).2.1
          = cmds.map (fun cp => OutEvent.command_response cp.1 (notFoundResponse device_id o))
      ∧ (sessionLoop device_id o bs
          (cmds.map (fun cp => WsEvent.msg (InMsg.command cp.1 cp.2)))).2.2
          = SessionEnd.stillOpen
      ∧ (sessionLoop device_id o bs
          (cmds.map (fun cp => WsEvent.msg (InMsg.command cp.1 cp.2)))).1.sim = bs.sim
      ∧ (sessionLoop device_id o bs
          (cmds.map (fun cp => WsEvent.msg (InMsg.command cp.1 cp.2)))).1.ws_conns
          = bs.ws_conns := by
  intro cmds
  induction cmds with
  | nil => exact fun bs hdev hmem => ⟨rfl, rfl, rfl, rfl⟩
  | cons cp rest ih =>
    intro bs hdev hmem
    obtain ⟨cmd, p⟩ := cp
    have hbumpsim : (bumpActivity bs device_id o).sim = bs.sim := rfl
    have hbumpws : (bumpActivity bs device_id o).ws_conns = bs.ws_conns := rfl
    have hrun : execute_command_run (bumpActivity bs device_id o).sim device_id cmd p o
        = Except.ok (notFoundResponse device_id o, bs.sim) := by
      unfold execute_command_run
      rw [hbumpsim, hdev]
    have hmem2 : device_id ∈ (bumpActivity bs device_id o).ws_conns := hmem
    have hproc : process_device_message (bumpActivity bs device_id o) device_id
        (InMsg.command cmd p) o
        = Except.ok ({ bumpActivity bs device_id o with sim := bs.sim },
            [OutEvent.command_response cmd (notFoundResponse device_id o)]) := by
      simp only [process_device_message, hrun]
      rw [if_pos hmem2]
    have hrec := ih { bumpActivity bs device_id o with sim := bs.sim }
      (by exact hdev) (by rw [show ({ bumpActivity bs device_id o with sim := bs.sim} :
        BridgeState).ws_conns = bs.ws_conns from rfl]; exact hmem)
    simp only [List.map_cons, sessionLoop]
    rw [hproc]
    refine ⟨?_, ?_, ?_, ?_⟩
    · simp only [List.cons_append, List.nil_append]
      rw [hrec.1]
    · exact hrec.2.1
    · exact hrec.2.2.1
    · exact hrec.2.2.2

/-- The if/elif chain of the executor (lines 184-218) yields either
success with no error, or failure with a non-empty error. -/
theorem dispatch_exclusive (d : DeviceInfo) (cmd : String) (p : Params) (o : Oracle) :
    ((dispatch d cmd p o).1 = true ∧ (dispatch d cmd p o).2.2 = none)
    ∨ ((dispatch d cmd p o).1 = false ∧ (dispatch d cmd p o).2.2 ≠ none) := by
  unfold dispatch
  split_ifs <;> simp

/-- C1: the first two executor preconditions (unknown device, device not
connected) do produce handled results with non-empty errors and raise
nothing, but the third case fails in the code: on a connected device an
unknown command never reaches the unknown-command branch, because line
177 evaluates `random.uniform` while the module never imports `random`,
raising `NameError` instead of returning the handled result the spec
describes.  The theorem evaluates the runtime model at the three cases of
the claim on the freshly initialised registry: `ghost_device` is not in
the pool, `rt809f_003` is generated `disconnected`, and `rt809f_001` is
generated `connected`. -/
theorem c1_precondition_results :
    (execute_command_run (initSimState oracle0) "ghost_device" "detect_chip" params0 oracle0
        = Except.ok (notFoundResponse "ghost_device" oracle0, initSimState oracle0))
    ∧ (notFoundResponse "ghost_device" oracle0).success = false
    ∧ (notFoundResponse "ghost_device" oracle0).error ≠ none
    ∧ (execute_command_run (initSimState oracle0) "rt809f_003" "detect_chip" params0 oracle0
        = Except.ok (notConnectedResponse "rt809f_003" oracle0, initSimState oracle0))
    ∧ (notConnectedResponse "rt809f_003" oracle0).success = false
    ∧ (notConnectedResponse "rt809f_003" oracle0).error ≠ none
    ∧ (execute_command_run (initSimState oracle0) "rt809f_001" "bogus_command" params0 oracle0
        = Except.error (PyExc.nameError "random")) := by
  refine ⟨rfl, rfl, ?_, rfl, rfl, ?_, rfl⟩
  · simp [notFoundResponse]
  · simp [notConnectedResponse]

/-- C2: every command response the executor's body can construct —
either precondition early return or any dispatch outcome — has success
with a null error, or failure with a non-empty error, never both and
never neither. -/
theorem c2_success_error_exclusive (s : SimState) (device_id cmd : String)
    (p : Params) (o : Oracle) :
    ((execute_command s device_id cmd p o).1.success = true
      ∧ (execute_command s device_id cmd p o).1.error = none)
    ∨ ((execute_command s device_id cmd p o).1.success = false
      ∧ (execute_command s device_id cmd p o).1.error ≠ none) := by
  cases hd : dget s.devices device_id with
  | none =>
    simp only [execute_command, hd]
    right
    refine ⟨rfl, ?_⟩
    simp [notFoundResponse]
  | some d =>
    simp only [execute_command, hd]
    by_cases hs : d.status = "connected"
    · rw [if_neg (not_not_intro hs)]
      rcases dispatch_exclusive d cmd p o with ⟨h1, h2⟩ | ⟨h1, h2⟩
      · left; exact ⟨h1, h2⟩
      · right; exact ⟨h1, h2⟩
    · rw [if_pos hs]
      right
      refine ⟨rfl, ?_⟩
      simp [notConnectedResponse]

/-- C3 counterexample: the claim "every invocation — success or handled
failure — is appended to the command history" fails concretely in both
directions on the runtime model: an invocation against an unknown device
id is a handled failure returned by the early return of lines 160-166,
before the append of lines 228-233, with the state (history still empty)
unchanged; and an invocation on the connected `rt809f_001` raises
`NameError` at line 177 (`random` is never imported), so it appends
nothing either. -/
theorem c3_history_counterexample :
    execute_command_run (initSimState oracle0) "ghost_device" "detect_chip" params0 oracle0
      = Except.ok (notFoundResponse "ghost_device" oracle0, initSimState oracle0)
    ∧ (notFoundResponse "ghost_device" oracle0).success = false
    ∧ (initSimState oracle0).command_history = []
    ∧ execute_command_run (initSimState oracle0) "rt809f_001" "detect_chip" params0 oracle0
      = Except.error (PyExc.nameError "random") := by
  exact ⟨rfl, rfl, rfl, rfl⟩

/-- C3 as amended: no invocation ever appends an entry to the command
history.  An invocation rejected by the device-existence or
connected-status check returns a handled success=false result with the
simulator state — and hence the history — unchanged; an invocation that
passes both checks raises `NameError` (the module never imports
`random`, line 177) before the append of lines 228-233 can run, so it
returns no result and appends nothing. -/
theorem c3_history_no_append :
    (∀ (s : SimState) (device_id cmd : String) (p : Params) (o : Oracle)
      (r : CommandResponse) (s2 : SimState),
      execute_command_run s device_id cmd p o = Except.ok (r, s2) →
      r.success = false ∧ s2.command_history = s.command_history)
    ∧ (∀ (s : SimState) (device_id cmd : String) (p : Params) (o : Oracle) (d : DeviceInfo),
      dget s.devices device_id = some d → d.status = "connected" →
      execute_command_run s device_id cmd p o = Except.error (PyExc.nameError "random")) := by
  constructor
  · intro s device_id cmd p o r s2 h
    unfold execute_command_run at h
    split at h
    · injection h with h'
      obtain ⟨hr, hs2⟩ := Prod.mk.inj h'
      subst hr
      subst hs2
      exact ⟨rfl, rfl⟩
    · split at h
      · injection h with h'
        obtain ⟨hr, hs2⟩ := Prod.mk.inj h'
        subst hr
        subst hs2
        exact ⟨rfl, rfl⟩
      · exact Except.noConfusion h
  · intro s device_id cmd p o d hd hs
    simp only [execute_command_run, hd]
    rw [if_neg (not_not_intro hs)]

/-- C3 witness: the handled not-found result on `ghost_device` leaves the
history unchanged, and a command on the connected `rt809f_001` faults
before the append. -/
theorem c3_history_no_append_witness :
    ((notFoundResponse "ghost_device" oracle0).success = false
      ∧ (initSimState oracle0).command_history = (initSimState oracle0).command_history)
    ∧ execute_command_run (initSimState oracle0) "rt809f_001" "bogus_command" params0 oracle0
      = Except.error (PyExc.nameError "random") := by
  constructor
  · exact c3_history_no_append.1 (initSimState oracle0) "ghost_device" "detect_chip"
      params0 oracle0 (notFoundResponse "ghost_device" oracle0) (initSimState oracle0) rfl
  · exact c3_history_no_append.2 (initSimState oracle0) "rt809f_001" "bogus_command"
      params0 oracle0 (mkDevice 0 oracle0) rfl rfl

/-- C4 counterexample: the generated pool does not use the ids
`device_001` … `device_005` the claim (and spec) state — the format
string of line 108 is `rt809f_{i+1:03d}`, and `device_001` is not a key
of the registry. -/
theorem c4_counterexample :
    (list_devices (initSimState oracle0)).map DeviceInfo.device_id
      ≠ ["device_001", "device_002", "device_003", "device_004", "device_005"]
    ∧ dget (initSimState oracle0).devices "device_001" = none := by
  exact ⟨by decide, rfl⟩

/-- C4 as amended: with the pool size 5, initialization populates exactly
five devices with ids `rt809f_001` … `rt809f_005` in creation order, the
first two `connected` and the remaining three `disconnected`, and the
device-list operation returns exactly those five entries in that order. -/
theorem c4_device_pool (o : Oracle) :
    (list_devices (initSimState o)).map DeviceInfo.device_id
      = ["rt809f_001", "rt809f_002", "rt809f_003", "rt809f_004", "rt809f_005"]
    ∧ (list_devices (initSimState o)).map DeviceInfo.status
      = ["connected", "connected", "disconnected", "disconnected", "disconnected"]
    ∧ (initSimState o).devices.map Prod.fst
      = ["rt809f_001", "rt809f_002", "rt809f_003", "rt809f_004", "rt809f_005"]
    ∧ (list_devices (initSimState o)).length = DEVICE_POOL_SIZE := by
  refine ⟨?_, ?_, ?_, ?_⟩ <;> rfl

/-- C6: the REST connect endpoint rejects a wrong API key with 401
leaving the simulator state (status and session records) untouched,
rejects an unknown device with 404 once the key is right, and on a right
key and known device marks the device `connected` and answers success
with the device id and the fresh session id. -/
theorem c6_connect_endpoint (apiKey : String) (s : SimState) (device_id : String)
    (req : ConnectionRequest) (o : Oracle) :
    (req.api_key ≠ some apiKey →
      connect_device apiKey s device_id req o = (ConnectHttp.unauthorized401, s))
    ∧ (req.api_key = some apiKey → dget s.devices device_id = none →
      connect_device apiKey s device_id req o = (ConnectHttp.notFound404, s))
    ∧ (∀ d : DeviceInfo, req.api_key = some apiKey → dget s.devices device_id = some d →
      connect_device apiKey s device_id req o
        = (ConnectHttp.connectedOk device_id o.session_uuid, (connect s device_id o).2)
      ∧ dget (connect s device_id o).2.devices device_id
        = some { d with status := "connected", last_seen := some o.now }
      ∧ dget (connect s device_id o).2.connections device_id
        = some ⟨o.now, o.session_uuid⟩) := by
  refine ⟨?_, ?_, ?_⟩
  · intro hk
    unfold connect_device
    rw [if_pos hk]
  · intro hk hd
    unfold connect_device
    rw [if_neg (not_not_intro hk), if_pos hd]
  · intro d hk hd
    have hcon : connect s device_id o
        = (true,
            { s with
              devices := dset s.devices device_id
                { d with status := "connected", last_seen := some o.now }
              connections := dset s.connections device_id ⟨o.now, o.session_uuid⟩ }) := by
      unfold connect
      rw [hd]
    refine ⟨?_, ?_, ?_⟩
    · unfold connect_device
      rw [if_neg (not_not_intro hk), if_neg (by simp [hd])]
      simp [hcon, dget_dset_self]
    · rw [hcon]
      exact dget_dset_self _ _ _
    · rw [hcon]
      exact dget_dset_self _ _ _

/-- C6 witness: on the fresh pool, connecting to `rt809f_003` with a
wrong key yields 401 with the state unchanged, to `ghost_device` with the
right key yields 404, and to `rt809f_003` with the right key yields the
success payload. -/
theorem c6_connect_endpoint_witness :
    connect_device API_KEY (initSimState oracle0) "rt809f_003"
        ⟨"rt809f_003", some "wrong_key", "websocket", 30⟩ oracle0
      = (ConnectHttp.unauthorized401, initSimState oracle0)
    ∧ connect_device API_KEY (initSimState oracle0) "ghost_device"
        ⟨"ghost_device", some API_KEY, "websocket", 30⟩ oracle0
      = (ConnectHttp.notFound404, initSimState oracle0)
    ∧ connect_device API_KEY (initSimState oracle0) "rt809f_003"
        ⟨"rt809f_003", some API_KEY, "websocket", 30⟩ oracle0
      = (ConnectHttp.connectedOk "rt809f_003" oracle0.session_uuid,
          (connect (initSimState oracle0) "rt809f_003" oracle0).2) := by
  refine ⟨?_, ?_, ?_⟩
  · exact (c6_connect_endpoint API_KEY (initSimState oracle0) "rt809f_003"
      ⟨"rt809f_003", some "wrong_key", "websocket", 30⟩ oracle0).1 (by decide)
  · exact (c6_connect_endpoint API_KEY (initSimState oracle0) "ghost_device"
      ⟨"ghost_device", some API_KEY, "websocket", 30⟩ oracle0).2.1 rfl rfl
  · exact ((c6_connect_endpoint API_KEY (initSimState oracle0) "rt809f_003"
      ⟨"rt809f_003", some API_KEY, "websocket", 30⟩ oracle0).2.2
      (mkDevice 2 oracle0) rfl rfl).1

/-- C7: the claim's size/roundtrip contract is never exercised — the
running program cannot produce a successful `read_flash` result at all.
Once the device-existence and connected-status checks pass, line 177
evaluates `random.uniform` with `random` never imported, raising
`NameError` before any result is built (and the `read_flash` branch
itself would further evaluate `hashlib.md5` at line 196 with `hashlib`
never imported).  The universal part shows every handled result a
`read_flash` invocation can yield is a failure; the closed part
evaluates the fault concretely on the connected `rt809f_001` with
requested size 3. -/
theorem c7_read_flash_fault :
    (∀ (s : SimState) (device_id : String) (p : Params) (o : Oracle),
      match execute_command_run s device_id "read_flash" p o with
      | Except.ok (r, _) => r.success = false
      | Except.error _ => True)
    ∧ execute_command_run (initSimState oracle0) "rt809f_001" "read_flash"
        ⟨some 3, none⟩ oracle0
      = Except.error (PyExc.nameError "random") := by
  constructor
  · intro s device_id p o
    cases hd : dget s.devices device_id with
    | none =>
      simp only [execute_command_run, hd]
      trivial
    | some d =>
      by_cases hs : d.status = "connected"
      · simp only [execute_command_run, hd]
        rw [if_neg (not_not_intro hs)]
        trivial
      · simp only [execute_command_run, hd]
        rw [if_pos hs]
        trivial
  · rfl

/-- C10: the simulator's connect succeeds exactly on registered ids,
installing the fresh connection record, so the REST endpoint's
`Connection failed` branch is unreachable once the key and the 404 check
have passed. -/
theorem c10_connect_registry (s : SimState) (device_id : String) (o : Oracle) :
    ((connect s device_id o).1 = true ↔ (dget s.devices device_id).isSome = true)
    ∧ (∀ d : DeviceInfo, dget s.devices device_id = some d →
        dget (connect s device_id o).2.connections device_id = some ⟨o.now, o.session_uuid⟩)
    ∧ (∀ (apiKey : String) (req : ConnectionRequest),
        req.api_key = some apiKey → (dget s.devices device_id).isSome = true →
        (connect_device apiKey s device_id req o).1 ≠ ConnectHttp.connectionFailed) := by
  refine ⟨?_, ?_, ?_⟩
  · cases hd : dget s.devices device_id with
    | none => unfold connect; rw [hd]; simp
    | some d => unfold connect; rw [hd]; simp
  · intro d hd
    unfold connect
    rw [hd]
    exact dget_dset_self _ _ _
  · intro apiKey req hk hsome
    cases hd : dget s.devices device_id with
    | none => rw [hd] at hsome; exact absurd hsome (by simp)
    | some d =>
      have hcon : connect s device_id o
          = (true,
              { s with
                devices := dset s.devices device_id
                  { d with status := "connected", last_seen := some o.now }
                connections := dset s.connections device_id ⟨o.now, o.session_uuid⟩ }) := by
        unfold connect
        rw [hd]
      unfold connect_device
      rw [if_neg (not_not_intro hk), if_neg (by simp [hd])]
      simp [hcon]

/-- C10 witness: `rt809f_004` is registered, so connect returns true and
the endpoint with the right key does not hit the failure branch. -/
theorem c10_connect_registry_witness :
    (connect (initSimState oracle0) "rt809f_004" oracle0).1 = true
    ∧ dget (connect (initSimState oracle0) "rt809f_004" oracle0).2.connections "rt809f_004"
      = some ⟨oracle0.now, oracle0.session_uuid⟩
    ∧ (connect_device API_KEY (initSimState oracle0) "rt809f_004"
        ⟨"rt809f_004", some API_KEY, "websocket", 30⟩ oracle0).1
      ≠ ConnectHttp.connectionFailed := by
  refine ⟨?_, ?_, ?_⟩
  · exact (c10_connect_registry (initSimState oracle0) "rt809f_004" oracle0).1.mpr rfl
  · exact (c10_connect_registry (initSimState oracle0) "rt809f_004" oracle0).2.1
      (mkDevice 3 oracle0) rfl
  · exact (c10_connect_registry (initSimState oracle0) "rt809f_004" oracle0).2.2
      API_KEY ⟨"rt809f_004", some API_KEY, "websocket", 30⟩ rfl rfl

/-- C5: for a WebSocket session on a registered device, whenever the
session loop exits — voluntary close, abrupt transport fault, or an
exception escaping message processing — the `finally` cleanup leaves the
device present but `disconnected` in the registry, destroys the
simulator's connection record, and removes both the transport handle and
the bridge-session record. -/
theorem c5_cleanup_on_exit (bs : BridgeState) (device_id : String) (events : List WsEvent)
    (o : Oracle) (d : DeviceInfo) (hd : dget bs.sim.devices device_id = some d)
    (hx : (handle_device_connection bs device_id events o).2.2 ≠ SessionEnd.stillOpen) :
    (∃ d2 : DeviceInfo,
      dget (handle_device_connection bs device_id events o).1.sim.devices device_id = some d2
      ∧ d2.status = "disconnected")
    ∧ dget (handle_device_connection bs device_id events o).1.sim.connections device_id = none
    ∧ device_id ∉ (handle_device_connection bs device_id events o).1.ws_conns
    ∧ dget (handle_device_connection bs device_id events o).1.bridge_sessions device_id
      = none := by
  have hconP : connect bs.sim device_id o
      = (true,
          { bs.sim with
            devices := dset bs.sim.devices device_id
              { d with status := "connected", last_seen := some o.now }
            connections := dset bs.sim.connections device_id ⟨o.now, o.session_uuid⟩ }) := by
    unfold connect
    rw [hd]
  have hPdev : dget (preState bs device_id o).sim.devices device_id
      = some { d with status := "connected", last_seen := some o.now } := by
    show dget (connect bs.sim device_id o).2.devices device_id = _
    rw [hconP]
    exact dget_dset_self _ _ _
  have hPconn : dget (preState bs device_id o).sim.connections device_id
      = some ⟨o.now, o.session_uuid⟩ := by
    show dget (connect bs.sim device_id o).2.connections device_id = _
    rw [hconP]
    exact dget_dset_self _ _ _
  have hinv := sessionLoop_inv device_id o events (preState bs device_id o)
  by_cases hso : (sessionLoop device_id o (preState bs device_id o) events).2.2
      = SessionEnd.stillOpen
  · exfalso
    apply hx
    show (finishSession device_id (sessionLoop device_id o (preState bs device_id o) events)).2.2
      = SessionEnd.stillOpen
    rw [finishSession_open device_id _ hso]
  · have hhandle : handle_device_connection bs device_id events o
        = (cleanup (sessionLoop device_id o (preState bs device_id o) events).1 device_id,
            OutEvent.connection_established device_id
              :: (sessionLoop device_id o (preState bs device_id o) events).2.1,
            (sessionLoop device_id o (preState bs device_id o) events).2.2) := by
      show finishSession device_id (sessionLoop device_id o (preState bs device_id o) events) = _
      exact finishSession_closed device_id _ hso
    have hc : dget (sessionLoop device_id o (preState bs device_id o) events).1.sim.connections
        device_id = some ⟨o.now, o.session_uuid⟩ := by
      rw [hinv.1]
      exact hPconn
    have hdv : dget (sessionLoop device_id o (preState bs device_id o) events).1.sim.devices
        device_id = some { d with status := "connected", last_seen := some o.now } := by
      rw [hinv.1]
      exact hPdev
    have hcs := cleanup_spec (sessionLoop device_id o (preState bs device_id o) events).1
      device_id ⟨o.now, o.session_uuid⟩ { d with status := "connected", last_seen := some o.now }
      hc hdv
    rw [hhandle]
    exact ⟨⟨_, hcs.1, rfl⟩, hcs.2.1, hcs.2.2.1, hcs.2.2.2⟩

/-- C5 witness: a session on the registered `rt809f_003` whose transport
closes immediately; the cleanup facts follow from the theorem. -/
theorem c5_cleanup_on_exit_witness :
    (∃ d2 : DeviceInfo,
      dget (handle_device_connection (initBridgeState oracle0) "rt809f_003"
          [WsEvent.disconnect] oracle0).1.sim.devices "rt809f_003" = some d2
      ∧ d2.status = "disconnected")
    ∧ dget (handle_device_connection (initBridgeState oracle0) "rt809f_003"
        [WsEvent.disconnect] oracle0).1.sim.connections "rt809f_003" = none
    ∧ "rt809f_003" ∉ (handle_device_connection (initBridgeState oracle0) "rt809f_003"
        [WsEvent.disconnect] oracle0).1.ws_conns
    ∧ dget (handle_device_connection (initBridgeState oracle0) "rt809f_003"
        [WsEvent.disconnect] oracle0).1.bridge_sessions "rt809f_003" = none :=
  c5_cleanup_on_exit (initBridgeState oracle0) "rt809f_003" [WsEvent.disconnect] oracle0
    (mkDevice 2 oracle0) rfl (by decide)

/-- C8: a session whose trace is nothing but idle-timeout expiries emits
exactly one ping per expiry after the connection acknowledgment, never
closes (the loop exit is still-open, only transport closure ends a
session), and the session record is exactly the one created at entry —
no state was reset. -/
theorem c8_idle_timeout_pings (bs : BridgeState) (device_id : String) (n : Nat) (o : Oracle) :
    (handle_device_connection bs device_id (List.replicate n WsEvent.timeout) o).2.1
      = OutEvent.connection_established device_id :: List.replicate n OutEvent.ping
    ∧ (handle_device_connection bs device_id (List.replicate n WsEvent.timeout) o).2.2
      = SessionEnd.stillOpen
    ∧ dget (handle_device_connection bs device_id
        (List.replicate n WsEvent.timeout) o).1.bridge_sessions device_id
      = some ⟨o.now, o.now, 0⟩ := by
  have hloop := sessionLoop_timeouts device_id o n (preState bs device_id o)
  have hhandle : handle_device_connection bs device_id (List.replicate n WsEvent.timeout) o
      = (preState bs device_id o,
          OutEvent.connection_established device_id :: List.replicate n OutEvent.ping,
          SessionEnd.stillOpen) := by
    show finishSession device_id
        (sessionLoop device_id o (preState bs device_id o) (List.replicate n WsEvent.timeout)) = _
    rw [hloop]
    rfl
  rw [hhandle]
  exact ⟨rfl, rfl, dget_dset_self _ _ _⟩

/-- C9: the WebSocket endpoint performs no existence check: on an
unregistered id the session is accepted, bookkeeping entries are
created, `connection_established` is emitted, the simulator connect
returns false leaving the registry untouched, and every inbound command
message is answered with the handled `Device ... not found` failure while
the session stays open. -/
theorem c9_unregistered_ws (bs : BridgeState) (device_id : String) (o : Oracle)
    (cmds : List (String × Params)) (hd : dget bs.sim.devices device_id = none) :
    (connect bs.sim device_id o).1 = false
    ∧ (handle_device_connection bs device_id
        (cmds.map (fun cp => WsEvent.msg (InMsg.command cp.1 cp.2))) o).2.1
      = OutEvent.connection_established device_id
          :: cmds.map (fun cp => OutEvent.command_response cp.1 (notFoundResponse device_id o))
    ∧ (handle_device_connection bs device_id
        (cmds.map (fun cp => WsEvent.msg (InMsg.command cp.1 cp.2))) o).2.2
      = SessionEnd.stillOpen
    ∧ (handle_device_connection bs device_id
        (cmds.map (fun cp => WsEvent.msg (InMsg.command cp.1 cp.2))) o).1.sim = bs.sim
    ∧ device_id ∈ (handle_device_connection bs device_id
        (cmds.map (fun cp => WsEvent.msg (InMsg.command cp.1 cp.2))) o).1.ws_conns
    ∧ (dget (handle_device_connection bs device_id
        (cmds.map (fun cp => WsEvent.msg (InMsg.command cp.1 cp.2))) o).1.bridge_sessions
        device_id).isSome = true
    ∧ (notFoundResponse device_id o).success = false
    ∧ (notFoundResponse device_id o).error ≠ none := by
  have hconF : connect bs.sim device_id o = (false, bs.sim) := by
    unfold connect
    rw [hd]
  have hPsim : (preState bs device_id o).sim = bs.sim := by
    show (connect bs.sim device_id o).2 = bs.sim
    rw [hconF]
  have hPmem : device_id ∈ (preState bs device_id o).ws_conns := mem_wsAdd _ _
  have hPdev : dget (preState bs device_id o).sim.devices device_id = none := by
    rw [hPsim]
    exact hd
  have hu := sessionLoop_unreg device_id o cmds (preState bs device_id o) hPdev hPmem
  have hinv := sessionLoop_inv device_id o
    (cmds.map (fun cp => WsEvent.msg (InMsg.command cp.1 cp.2))) (preState bs device_id o)
  have hhandle : handle_device_connection bs device_id
      (cmds.map (fun cp => WsEvent.msg (InMsg.command cp.1 cp.2))) o
      = ((sessionLoop device_id o (preState bs device_id o)
            (cmds.map (fun cp => WsEvent.msg (InMsg.command cp.1 cp.2)))).1,
          OutEvent.connection_established device_id
            :: (sessionLoop device_id o (preState bs device_id o)
                (cmds.map (fun cp => WsEvent.msg (InMsg.command cp.1 cp.2)))).2.1,
          SessionEnd.stillOpen) := by
    show finishSession device_id (sessionLoop device_id o (preState bs device_id o)
      (cmds.map (fun cp => WsEvent.msg (InMsg.command cp.1 cp.2)))) = _
    exact finishSession_open device_id _ hu.2.1
  refine ⟨by rw [hconF], ?_, ?_, ?_, ?_, ?_, rfl, ?_⟩
  · rw [hhandle]
    simp only [List.cons.injEq, true_and]
    exact hu.1
  · rw [hhandle]
  · rw [hhandle]
    exact hu.2.2.1.trans hPsim
  · rw [hhandle]
    rw [hu.2.2.2]
    exact hPmem
  · rw [hhandle]
    rw [hinv.2.2 device_id]
    rw [show dget (preState bs device_id o).bridge_sessions device_id
      = some ⟨o.now, o.now, 0⟩ from dget_dset_self _ _ _]
    rfl
  · simp [notFoundResponse]

/-- C9 witness: a session for the unknown id `ghost_device` carrying one
command message. -/
theorem c9_unregistered_ws_witness :
    (connect (initBridgeState oracle0).sim "ghost_device" oracle0).1 = false
    ∧ (handle_device_connection (initBridgeState oracle0) "ghost_device"
        ([("detect_chip", params0)].map (fun cp => WsEvent.msg (InMsg.command cp.1 cp.2)))
        oracle0).2.1
      = OutEvent.connection_established "ghost_device"
          :: [("detect_chip", params0)].map
              (fun cp => OutEvent.command_response cp.1 (notFoundResponse "ghost_device" oracle0))
    ∧ (handle_device_connection (initBridgeState oracle0) "ghost_device"
        ([("detect_chip", params0)].map (fun cp => WsEvent.msg (InMsg.command cp.1 cp.2)))
        oracle0).2.2
      = SessionEnd.stillOpen
    ∧ (handle_device_connection (initBridgeState oracle0) "ghost_device"
        ([("detect_chip", params0)].map (fun cp => WsEvent.msg (InMsg.command cp.1 cp.2)))
        oracle0).1.sim = (initBridgeState oracle0).sim
    ∧ "ghost_device" ∈ (handle_device_connection (initBridgeState oracle0) "ghost_device"
        ([("detect_chip", params0)].map (fun cp => WsEvent.msg (InMsg.command cp.1 cp.2)))
        oracle0).1.ws_conns
    ∧ (dget (handle_device_connection (initBridgeState oracle0) "ghost_device"
        ([("detect_chip", params0)].map (fun cp => WsEvent.msg (InMsg.command cp.1 cp.2)))
        oracle0).1.bridge_sessions "ghost_device").isSome = true
    ∧ (notFoundResponse "ghost_device" oracle0).success = false
    ∧ (notFoundResponse "ghost_device" oracle0).error ≠ none :=
  c9_unregistered_ws (initBridgeState oracle0) "ghost_device" oracle0
    [("detect_chip", params0)] rfl
